import Mathlib

/-!
Verification of the server-monitor orchestration core (registries, result
pipeline, service lifecycle, configuration resolution) against a shallow
embedding of the Go sources.

Conventions of the embedding:
* Go maps (`map[string]T`) are association lists `List (String × T)`;
  `List.lookup` models map indexing.  Go guarantees key uniqueness, which a
  few theorems take as an explicit `Nodup` hypothesis where it matters.
* Go `error` results are `Except String _` (or `Except (List String) _`
  where the code aggregates several error messages).
* `time.Duration` is `Int` (nanoseconds); `time.Second` is the constant
  `second` below.
* External I/O (the SMTP transaction, collector metric gathering) is
  abstracted to its outcome, passed in as data.
-/

namespace ServerMonitor

/-- Opaque stand-in for a Go `interface{}` settings value.  Only the shapes
that actually occur in the configuration maps are represented. -/
inductive SettingVal where
  | str : String → SettingVal
  | int : Int → SettingVal
  | strList : List String → SettingVal
  | table : List (String × SettingVal) → SettingVal
deriving Repr

/-- `map[string]interface{}` settings map handed to plugin `Init`. -/
abbrev Settings := List (String × SettingVal)

/-- collectors/collector.go `Threshold`: descriptive record of a checked rule. -/
structure Threshold where
  type : String
  metric : String
  operator : String
  value : Float
  severity : String

/-- collectors/collector.go `Result`: outcome of one collection operation.
`time.Time` is abstracted to a `Nat` tick; `Metadata` values are opaque. -/
structure Result where
  isHealthy : Bool
  collector : String
  timestamp : Nat
  message : String
  metrics : List (String × Float)
  thresholds : List Threshold
  metadata : List (String × SettingVal)

/-- collectors/collector.go `Collector` contract.  `Init` is modelled as
accept/reject of the settings; `Cleanup` by its outcome.  (`Collect` is
external I/O and is irrelevant to the claims below.) -/
structure Collector where
  name : String
  init : Settings → Except String Unit
  cleanup : Except String Unit

/-- notifiers/notifier.go `Notifier` contract, modelled analogously. -/
structure Notifier where
  name : String
  init : Settings → Except String Unit
  notify : List Result → Except String Unit
  close : Except String Unit

/-! ## Configuration (config/config.go) -/

/-- config.go `MonitorConfig`. -/
structure MonitorConfig where
  defaultIntervalSeconds : Int

/-- config.go `CollectorConfig`.  `interval_seconds` carries `omitempty`: an
absent override unmarshals to `0`.  A `nil` settings map is `none`. -/
structure CollectorConfig where
  enabled : Bool
  interval : Int
  settings : Option Settings

/-- config.go `EmailConfig`. -/
structure EmailConfig where
  enabled : Bool
  fromAddr : String
  toAddrs : List String
  smtpServer : String
  smtpPort : Int
  username : String
  password : String

/-- config.go `NotificationsConfig`. -/
structure NotificationsConfig where
  email : EmailConfig

/-- config.go `Config`. -/
structure Config where
  monitor : MonitorConfig
  collectors : List (String × CollectorConfig)
  notifications : NotificationsConfig

/-- `time.Second` in nanoseconds. -/
def second : Int := 1000000000

/-- config.go `Config.GetCollectorInterval`: `0` when the collector is absent
or disabled, otherwise the override (when positive) or the default, in
`time.Duration` units. -/
def Config.getCollectorInterval (c : Config) (collectorName : String) : Int :=
  match c.collectors.lookup collectorName with
  | none => 0
  | some collector =>
    if !collector.enabled then 0
    else
      let interval := if collector.interval ≤ 0 then c.monitor.defaultIntervalSeconds else collector.interval
      interval * second

/-- config.go `validateConfig`.  Rejects a non-positive default interval,
rewrites enabled collectors with a non-positive override to the default, and
checks the email section when enabled.  The `ok` value carries the mutated
configuration (the Go function mutates `config` in place). -/
def validateConfig (config : Config) : Except String Config :=
  if config.monitor.defaultIntervalSeconds ≤ 0 then
    .error "monitor.default_interval_seconds must be greater than 0"
  else
    let collectors := config.collectors.map (fun p =>
      if p.2.enabled && p.2.interval ≤ 0 then
        (p.1, { p.2 with interval := config.monitor.defaultIntervalSeconds })
      else p)
    let config := { config with collectors := collectors }
    if config.notifications.email.enabled then
      if config.notifications.email.fromAddr = "" then
        .error "email notification enabled but 'from' address is empty"
      else if config.notifications.email.toAddrs.length = 0 then
        .error "email notification enabled but 'to' addresses are empty"
      else if config.notifications.email.smtpServer = "" then
        .error "email notification enabled but 'smtp_server' is empty"
      else if config.notifications.email.smtpPort ≤ 0 then
        .error "email notification enabled but 'smtp_port' is invalid"
      else .ok config
    else .ok config

/-! ## Capability registries

collectors/registry.go and notifiers/registry.go duplicate the same logic
for their respective capability type; both are embedded.  The mutex only
guards the map and is invisible in a sequential model. -/

namespace Collectors

/-- collectors/registry.go `Registry` (its name→collector map). -/
abbrev Registry := List (String × Collector)

/-- collectors/registry.go `Registry.Register`: reject an empty name, then a
duplicate name, otherwise insert.  The `ok` value is the updated map. -/
def register (r : Registry) (collector : Collector) : Except String Registry :=
  let name := collector.name
  if name = "" then .error "collector has empty name"
  else if (r.lookup name).isSome then
    .error ("collector with name '" ++ name ++ "' already registered")
  else .ok (r ++ [(name, collector)])

/-- The registry state after a `Register` call: unchanged when the call
returned an error (the Go method mutates only on success). -/
def registryAfter (r : Registry) (collector : Collector) : Registry :=
  match register r collector with
  | .ok r2 => r2
  | .error _ => r

/-- collectors/registry.go `Registry.Get`. -/
def get (r : Registry) (name : String) : Option Collector :=
  r.lookup name

/-- collectors/registry.go `Registry.GetAll` (map-value snapshot; Go map
order is arbitrary and is fixed here as insertion order). -/
def getAll (r : Registry) : List Collector :=
  r.map Prod.snd

end Collectors

namespace Notifiers

/-- notifiers/registry.go `Registry` (its name→notifier map). -/
abbrev Registry := List (String × Notifier)

/-- notifiers/registry.go `Registry.Register`: identical logic to the
collector registry. -/
def register (r : Registry) (notifier : Notifier) : Except String Registry :=
  let name := notifier.name
  if name = "" then .error "notifier has empty name"
  else if (r.lookup name).isSome then
    .error ("notifier with name '" ++ name ++ "' already registered")
  else .ok (r ++ [(name, notifier)])

/-- Registry state after a `Register` call (unchanged on error). -/
def registryAfter (r : Registry) (notifier : Notifier) : Registry :=
  match register r notifier with
  | .ok r2 => r2
  | .error _ => r

/-- notifiers/registry.go `Registry.Get`. -/
def get (r : Registry) (name : String) : Option Notifier :=
  r.lookup name

/-- notifiers/registry.go `Registry.GetAll`. -/
def getAll (r : Registry) : List Notifier :=
  r.map Prod.snd

end Notifiers

/-- Association-list lookup at a matching head. -/
lemma lookup_cons_self {α : Type} (k : String) (v : α) (rest : List (String × α)) :
    List.lookup k ((k, v) :: rest) = some v := by
  simp [List.lookup]

/-- Association-list lookup skips a non-matching head. -/
lemma lookup_cons_ne {α : Type} {k k1 : String} (v1 : α) (rest : List (String × α))
    (hk : k ≠ k1) : List.lookup k ((k1, v1) :: rest) = List.lookup k rest := by
  have hb : (k == k1) = false := beq_eq_false_iff_ne.mpr hk
  simp [List.lookup, hb]

/-- Looking up a freshly appended binding whose key was absent before. -/
lemma lookup_append_singleton {α : Type} {l : List (String × α)} {k : String} {v : α}
    (h : l.lookup k = none) : (l ++ [(k, v)]).lookup k = some v := by
  induction l with
  | nil => simp [List.lookup]
  | cons p rest ih =>
    obtain ⟨k1, v1⟩ := p
    by_cases hk : k = k1
    · subst hk
      rw [lookup_cons_self] at h
      cases h
    · rw [lookup_cons_ne v1 rest hk] at h
      rw [List.cons_append, lookup_cons_ne v1 _ hk]
      exact ih h

end ServerMonitor

namespace ServerMonitor

/-- C1: For every registry (collector or notifier) and every capability
instance: registering under an already-present name returns an error and a
subsequent `get` with that name still returns the first-registered instance;
registering with an empty name returns an error and the registry is
unchanged; otherwise `register` inserts the instance and succeeds. -/
theorem register_duplicate_empty_fresh_spec :
    ∀ (rc : Collectors.Registry) (c : Collector) (rn : Notifiers.Registry) (n : Notifier),
      (c.name = "" →
        (Collectors.register rc c).isOk = false ∧ Collectors.registryAfter rc c = rc) ∧
      (∀ c0, Collectors.get rc c.name = some c0 →
        (Collectors.register rc c).isOk = false ∧
        Collectors.get (Collectors.registryAfter rc c) c.name = some c0) ∧
      (c.name ≠ "" → Collectors.get rc c.name = none →
        Collectors.register rc c = .ok (rc ++ [(c.name, c)]) ∧
        Collectors.get (Collectors.registryAfter rc c) c.name = some c) ∧
      (n.name = "" →
        (Notifiers.register rn n).isOk = false ∧ Notifiers.registryAfter rn n = rn) ∧
      (∀ n0, Notifiers.get rn n.name = some n0 →
        (Notifiers.register rn n).isOk = false ∧
        Notifiers.get (Notifiers.registryAfter rn n) n.name = some n0) ∧
      (n.name ≠ "" → Notifiers.get rn n.name = none →
        Notifiers.register rn n = .ok (rn ++ [(n.name, n)]) ∧
        Notifiers.get (Notifiers.registryAfter rn n) n.name = some n) := by
  intro rc c rn n
  refine ⟨?_, ?_, ?_, ?_, ?_, ?_⟩
  · intro hname
    simp [Collectors.register, Collectors.registryAfter, hname, Except.isOk, Except.toBool]
  · intro c0 hget
    have hsome : (rc.lookup c.name).isSome = true := by
      simp only [Collectors.get] at hget
      simp [hget]
    have herr : (Collectors.register rc c).isOk = false := by
      by_cases hname : c.name = "" <;>
        simp [Collectors.register, hname, hsome, Except.isOk, Except.toBool]
    have hafter : Collectors.registryAfter rc c = rc := by
      by_cases hname : c.name = "" <;>
        simp [Collectors.registryAfter, Collectors.register, hname, hsome]
    exact ⟨herr, by rw [hafter]; exact hget⟩
  · intro hname hget
    simp only [Collectors.get] at hget
    have hreg : Collectors.register rc c = .ok (rc ++ [(c.name, c)]) := by
      simp [Collectors.register, hname, hget]
    refine ⟨hreg, ?_⟩
    simp only [Collectors.registryAfter, hreg, Collectors.get]
    exact lookup_append_singleton hget
  · intro hname
    simp [Notifiers.register, Notifiers.registryAfter, hname, Except.isOk, Except.toBool]
  · intro n0 hget
    have hsome : (rn.lookup n.name).isSome = true := by
      simp only [Notifiers.get] at hget
      simp [hget]
    have herr : (Notifiers.register rn n).isOk = false := by
      by_cases hname : n.name = "" <;>
        simp [Notifiers.register, hname, hsome, Except.isOk, Except.toBool]
    have hafter : Notifiers.registryAfter rn n = rn := by
      by_cases hname : n.name = "" <;>
        simp [Notifiers.registryAfter, Notifiers.register, hname, hsome]
    exact ⟨herr, by rw [hafter]; exact hget⟩
  · intro hname hget
    simp only [Notifiers.get] at hget
    have hreg : Notifiers.register rn n = .ok (rn ++ [(n.name, n)]) := by
      simp [Notifiers.register, hname, hget]
    refine ⟨hreg, ?_⟩
    simp only [Notifiers.registryAfter, hreg, Notifiers.get]
    exact lookup_append_singleton hget

/-- A sample collector instance for concrete evaluations. -/
def sampleCollector : Collector :=
  { name := "disk_space", init := fun _ => .ok (), cleanup := .ok () }

/-- A sample notifier instance for concrete evaluations. -/
def sampleNotifier : Notifier :=
  { name := "email", init := fun _ => .ok (), notify := fun _ => .ok (), close := .ok () }

/-- Witness for C1: a duplicate registration of `disk_space` fails and leaves
the first instance in place; a fresh registration of `email` succeeds. -/
theorem register_duplicate_empty_fresh_spec_witness :
    (Collectors.register [("disk_space", sampleCollector)] sampleCollector).isOk = false ∧
    Collectors.get
      (Collectors.registryAfter [("disk_space", sampleCollector)] sampleCollector)
      "disk_space" = some sampleCollector ∧
    Notifiers.register [] sampleNotifier = .ok [("email", sampleNotifier)] := by
  have h := register_duplicate_empty_fresh_spec
    [("disk_space", sampleCollector)] sampleCollector [] sampleNotifier
  have hdup := h.2.1 sampleCollector (by rfl)
  have hfresh := h.2.2.2.2.2 (by decide) (by rfl)
  exact ⟨hdup.1, hdup.2, hfresh.1⟩

/-! ## Result pipeline (monitor.go) -/

namespace Monitor

/-- monitor.go `processResults`' filter loop: collect the results whose
`IsHealthy` flag is false by appending to an accumulator, preserving order. -/
def unhealthyOf (results : List Result) : List Result :=
  results.foldl (fun acc result => if !result.isHealthy then acc ++ [result] else acc) []

/-- monitor.go `sendNotifications`.  The code checks each notifier's enabled
flag (only `email` exists), dispatches the batch to it when it is present in
the registry, collects per-notifier failure messages into `errs`, and when
`errs` is non-empty returns an aggregate error listing every message
(`fmt.Errorf("notification errors: %v", errStrings)` is modelled as the
`errStrings` list itself).  The second component records every `Notify`
dispatch as (notifier name, batch handed over). -/
def sendNotifications (cfg : Config) (notifierRegistry : Notifiers.Registry)
    (results : List Result) :
    Except (List String) Unit × List (String × List Result) :=
  let state :=
    if cfg.notifications.email.enabled then
      match Notifiers.get notifierRegistry "email" with
      | some notifier =>
        match notifier.notify results with
        | .error e => (["email notification failed: " ++ e], [("email", results)])
        | .ok _ => (([] : List String), [("email", results)])
      | none => ([], [])
    else ([], [])
  if 0 < state.1.length then (.error state.1, state.2) else (.ok (), state.2)

/-- monitor.go `processResults`: filter out the unhealthy results; when none
exist return nil without further action, otherwise hand exactly the
unhealthy subset to `sendNotifications`. -/
def processResults (cfg : Config) (notifierRegistry : Notifiers.Registry)
    (results : List Result) :
    Except (List String) Unit × List (String × List Result) :=
  let unhealthyResults := unhealthyOf results
  if unhealthyResults.length = 0 then (.ok (), [])
  else sendNotifications cfg notifierRegistry unhealthyResults

end Monitor

/-- The append-accumulator loop of `unhealthyOf` computes `List.filter`. -/
lemma foldl_append_eq_filter (p : Result → Bool) :
    ∀ (l : List Result) (acc : List Result),
      l.foldl (fun acc r => if p r then acc ++ [r] else acc) acc = acc ++ l.filter p := by
  intro l
  induction l with
  | nil => intro acc; simp
  | cons r rest ih =>
    intro acc
    cases hp : p r with
    | true => simp [hp, ih, List.filter_cons]
    | false => simp [hp, ih, List.filter_cons]

/-- `unhealthyOf` is the filter on the `IsHealthy` flag. -/
lemma unhealthyOf_eq_filter (results : List Result) :
    Monitor.unhealthyOf results = results.filter (fun r => !r.isHealthy) := by
  simpa [Monitor.unhealthyOf] using
    foldl_append_eq_filter (fun r => !r.isHealthy) results []

/-- An all-healthy batch has an empty unhealthy subset. -/
lemma unhealthyOf_eq_nil_of_healthy {results : List Result}
    (h : ∀ r ∈ results, r.isHealthy = true) :
    Monitor.unhealthyOf results = [] := by
  rw [unhealthyOf_eq_filter]
  apply List.filter_eq_nil_iff.mpr
  intro r hr
  simp [h r hr]

/-- Every dispatch made by `sendNotifications` hands over its argument batch. -/
lemma sendNotifications_dispatch_batch (cfg : Config) (reg : Notifiers.Registry)
    (rs : List Result) :
    ∀ d ∈ (Monitor.sendNotifications cfg reg rs).2, d.2 = rs := by
  intro d hd
  unfold Monitor.sendNotifications at hd
  cases he : cfg.notifications.email.enabled with
  | false =>
    simp [he] at hd
  | true =>
    cases hr : Notifiers.get reg "email" with
    | none => simp [he, hr] at hd
    | some notifier =>
      cases hn : notifier.notify rs with
      | ok u => simp [he, hr, hn] at hd; simp [hd]
      | error e => simp [he, hr, hn] at hd; simp [hd]

end ServerMonitor

namespace ServerMonitor

/-- Replace a result's recorded thresholds; used to state that the pipeline
never consults them. -/
def setThresholds (f : List Threshold → List Threshold) (r : Result) : Result :=
  { r with thresholds := f r.thresholds }

/-- C4: the subset handed to notification dispatch is exactly the
subsequence of entries whose healthy flag is false, in the original order,
determined solely by the flag: it is the literal filter, a sublist of the
batch, invariant under any rewrite of the recorded thresholds, and every
batch that `processResults` hands to a notifier equals it. -/
theorem unhealthy_subset_by_flag_only : ∀ (results : List Result),
    Monitor.unhealthyOf results = results.filter (fun r => !r.isHealthy) ∧
    (Monitor.unhealthyOf results).Sublist results ∧
    (∀ f, Monitor.unhealthyOf (results.map (setThresholds f)) =
      (Monitor.unhealthyOf results).map (setThresholds f)) ∧
    (∀ cfg reg, ∀ d ∈ (Monitor.processResults cfg reg results).2,
      d.2 = Monitor.unhealthyOf results) := by
  intro results
  refine ⟨unhealthyOf_eq_filter results, ?_, ?_, ?_⟩
  · rw [unhealthyOf_eq_filter]
    exact List.filter_sublist results
  · intro f
    rw [unhealthyOf_eq_filter, unhealthyOf_eq_filter]
    induction results with
    | nil => simp
    | cons r rest ih =>
      cases hr : r.isHealthy with
      | true =>
        have hr2 : (setThresholds f r).isHealthy = true := hr
        simp [List.filter_cons, hr, hr2, ih]
      | false =>
        have hr2 : (setThresholds f r).isHealthy = false := hr
        simp [List.filter_cons, hr, hr2, ih]
  · intro cfg reg d hd
    unfold Monitor.processResults at hd
    by_cases hlen : (Monitor.unhealthyOf results).length = 0
    · simp [hlen] at hd
    · simp only [hlen, ite_false] at hd
      exact sendNotifications_dispatch_batch cfg reg _ d hd

/-- Witness for C4 at a concrete mixed batch. -/
theorem unhealthy_subset_by_flag_only_witness :
    Monitor.unhealthyOf
      [{ isHealthy := true, collector := "disk_space", timestamp := 0, message := "",
         metrics := [], thresholds := [], metadata := [] },
       { isHealthy := false, collector := "memory", timestamp := 1, message := "high",
         metrics := [], thresholds := [], metadata := [] }] =
      [{ isHealthy := false, collector := "memory", timestamp := 1, message := "high",
         metrics := [], thresholds := [], metadata := [] }] := by
  have h := unhealthy_subset_by_flag_only
    [{ isHealthy := true, collector := "disk_space", timestamp := 0, message := "",
       metrics := [], thresholds := [], metadata := [] },
     { isHealthy := false, collector := "memory", timestamp := 1, message := "high",
       metrics := [], thresholds := [], metadata := [] }]
  rw [h.1]
  rfl

/-- C3: a batch in which every entry is healthy (including the empty batch)
triggers zero notifier calls and returns success. -/
theorem healthy_batch_no_dispatch :
    ∀ (cfg : Config) (reg : Notifiers.Registry) (results : List Result),
      (∀ r ∈ results, r.isHealthy = true) →
      Monitor.processResults cfg reg results = (.ok (), []) := by
  intro cfg reg results h
  unfold Monitor.processResults
  rw [unhealthyOf_eq_nil_of_healthy h]
  simp

/-- Witness for C3: a concrete healthy batch produces success and an empty
dispatch list. -/
theorem healthy_batch_no_dispatch_witness :
    Monitor.processResults
      { monitor := { defaultIntervalSeconds := 300 },
        collectors := [],
        notifications := { email :=
          { enabled := true, fromAddr := "monitor@example.com",
            toAddrs := ["admin@example.com"], smtpServer := "smtp.example.com",
            smtpPort := 587, username := "", password := "" } } }
      [("email", sampleNotifier)]
      [{ isHealthy := true, collector := "memory", timestamp := 0, message := "",
         metrics := [], thresholds := [], metadata := [] }] = (.ok (), []) := by
  exact healthy_batch_no_dispatch _ _ _ (by
    intro r hr
    simp at hr
    rw [hr])

/-- C2: for a batch with at least one unhealthy entry, the pipeline
dispatches the unhealthy subset to every enabled notifier found in the
registry (the code knows the single notifier `email`); a zero-enabled
configuration yields success; an enabled notifier missing from the registry
is skipped; when the notifier fails, the pipeline returns the aggregate
error listing the failure message, and when it succeeds the pipeline
returns success. -/
theorem unhealthy_batch_dispatch_aggregate :
    ∀ (cfg : Config) (reg : Notifiers.Registry) (results : List Result),
      Monitor.unhealthyOf results ≠ [] →
      (cfg.notifications.email.enabled = false →
        Monitor.processResults cfg reg results = (.ok (), [])) ∧
      (cfg.notifications.email.enabled = true →
        Notifiers.get reg "email" = none →
        Monitor.processResults cfg reg results = (.ok (), [])) ∧
      (∀ n, cfg.notifications.email.enabled = true →
        Notifiers.get reg "email" = some n →
        (Monitor.processResults cfg reg results).2 =
          [("email", Monitor.unhealthyOf results)] ∧
        (n.notify (Monitor.unhealthyOf results) = .ok () →
          (Monitor.processResults cfg reg results).1 = .ok ()) ∧
        (∀ e, n.notify (Monitor.unhealthyOf results) = .error e →
          (Monitor.processResults cfg reg results).1 =
            .error ["email notification failed: " ++ e])) := by
  intro cfg reg results hne
  have hlen : ¬(Monitor.unhealthyOf results).length = 0 := by
    simpa [List.length_eq_zero] using hne
  refine ⟨?_, ?_, ?_⟩
  · intro he
    unfold Monitor.processResults Monitor.sendNotifications
    simp [hlen, he]
  · intro he hr
    unfold Monitor.processResults Monitor.sendNotifications
    simp [hlen, he, hr]
  · intro n he hr
    refine ⟨?_, ?_, ?_⟩
    · unfold Monitor.processResults Monitor.sendNotifications
      cases hn : n.notify (Monitor.unhealthyOf results) <;> simp [hlen, he, hr, hn]
    · intro hok
      unfold Monitor.processResults Monitor.sendNotifications
      simp [hlen, he, hr, hok]
    · intro e hee
      unfold Monitor.processResults Monitor.sendNotifications
      simp [hlen, he, hr, hee]

/-- A notifier whose `Notify` always fails, for concrete evaluations. -/
def failingNotifier : Notifier :=
  { name := "email", init := fun _ => .ok (),
    notify := fun _ => .error "boom", close := .ok () }

/-- A concrete unhealthy result. -/
def unhealthySample : Result :=
  { isHealthy := false, collector := "memory", timestamp := 0,
    message := "memory usage high", metrics := [], thresholds := [], metadata := [] }

/-- A configuration with email notifications enabled. -/
def enabledEmailConfig : Config :=
  { monitor := { defaultIntervalSeconds := 300 },
    collectors := [],
    notifications := { email :=
      { enabled := true, fromAddr := "monitor@example.com",
        toAddrs := ["admin@example.com"], smtpServer := "smtp.example.com",
        smtpPort := 587, username := "", password := "" } } }

/-- Witness for C2: one unhealthy result, email enabled, the notifier fails:
the dispatch happens with the unhealthy subset and the aggregate error lists
the failure message. -/
theorem unhealthy_batch_dispatch_aggregate_witness :
    (Monitor.processResults enabledEmailConfig [("email", failingNotifier)]
        [unhealthySample]).1 = .error ["email notification failed: boom"] ∧
    (Monitor.processResults enabledEmailConfig [("email", failingNotifier)]
        [unhealthySample]).2 = [("email", [unhealthySample])] := by
  have hne : Monitor.unhealthyOf [unhealthySample] = [unhealthySample] := rfl
  have h := unhealthy_batch_dispatch_aggregate enabledEmailConfig
    [("email", failingNotifier)] [unhealthySample]
    (by rw [hne]; exact List.cons_ne_nil _ _)
  have h3 := h.2.2 failingNotifier rfl rfl
  refine ⟨?_, ?_⟩
  · have := h3.2.2 "boom" rfl
    simpa using this
  · rw [h3.1, hne]

/-! ## Email notifier (notifiers/email/email.go) -/

namespace Email

/-- email.go `EmailNotifier` state after `Init`; the `smtp.Auth` handle is
abstracted to whether credentials were configured. -/
structure EmailNotifier where
  fromAddr : String
  toAddrs : List String
  smtpServer : String
  smtpPort : Int
  username : String
  password : String
  hasAuth : Bool

/-- email.go `Notify`'s filter loop: keep only unhealthy results, in order. -/
def filterUnhealthy (results : List Result) : List Result :=
  results.foldl (fun acc result => if !result.isHealthy then acc ++ [result] else acc) []

/-- One numbered item of email.go `formatEmailBody`.
`Timestamp.Format(time.RFC1123)` and the `%.2f` metric rendering are
abstracted to `toString`; Go's arbitrary map iteration order over metrics is
fixed as list order. -/
def formatResultItem (i : Nat) (result : Result) : String :=
  toString (i + 1) ++ ". [" ++ toString result.timestamp ++ "] " ++ result.message ++ "\n" ++
  (if 0 < result.metrics.length then
    "   Metrics:\n" ++
      String.join (result.metrics.map (fun kv => "   - " ++ kv.1 ++ ": " ++ toString kv.2 ++ "\n"))
  else "") ++ "\n"

/-- email.go `formatEmailBody`. -/
def formatEmailBody (results : List Result) : String :=
  "The following issues were detected on the server:\n\n" ++
  String.join (results.enum.map (fun p => formatResultItem p.1 p.2)) ++
  "\n--\nThis is an automated message from the server monitoring system.\nPlease do not reply to this email.\n"

/-- email.go `Notify`'s message assembly: the header map (Go iteration order
fixed as insertion order) then a blank line and the body. -/
def composeMessage (n : EmailNotifier) (subject body : String) : String :=
  let headers := [("From", n.fromAddr), ("To", String.intercalate ", " n.toAddrs),
    ("Subject", subject), ("MIME-Version", "1.0"),
    ("Content-Type", "text/plain; charset=\"utf-8\""),
    ("Content-Transfer-Encoding", "base64")]
  String.join (headers.map (fun kv => kv.1 ++ ": " ++ kv.2 ++ "\r\n")) ++ "\r\n" ++ body

/-- email.go `Notify`.  Filters the batch; with no unhealthy results it
returns nil before any network activity.  Otherwise it composes the message,
honours context cancellation, and performs the SMTP transaction
(`smtp.SendMail`, or the explicit Dial/Mail/Rcpt/Data sequence when no auth
is configured) — external I/O whose outcome is the `send` argument applied
to the composed message; the step-specific error wrapping of the no-auth
path is folded into that outcome.  Returns the Go error and whether any
network operation (connection or send) was attempted. -/
def notify (n : EmailNotifier) (ctxCancelled : Bool)
    (send : String → Except String Unit) (results : List Result) :
    Except String Unit × Bool :=
  let unhealthyResults := filterUnhealthy results
  if unhealthyResults.length = 0 then (.ok (), false)
  else
    let subject := "Server Alert: " ++ toString unhealthyResults.length ++ " issue(s) detected"
    let body := formatEmailBody unhealthyResults
    let message := composeMessage n subject body
    if ctxCancelled then (.error "context canceled", false)
    else
      match send message with
      | .ok _ => (.ok (), true)
      | .error e => (.error ("failed to send email: " ++ e), true)

end Email

/-- C10: the email notifier re-filters the batch by the healthy flag; when
the unhealthy subset is empty it returns success without attempting any SMTP
connection or send, so healthy batches never trigger a network operation. -/
theorem email_notify_healthy_no_network :
    ∀ (n : Email.EmailNotifier) (ctxCancelled : Bool)
      (send : String → Except String Unit) (results : List Result),
      (∀ r ∈ results, r.isHealthy = true) →
      Email.notify n ctxCancelled send results = (.ok (), false) := by
  intro n c send results h
  have hnil : Email.filterUnhealthy results = [] := by
    have := foldl_append_eq_filter (fun r => !r.isHealthy) results []
    simp only [Email.filterUnhealthy]
    rw [this]
    simp only [List.nil_append]
    apply List.filter_eq_nil_iff.mpr
    intro r hr
    simp [h r hr]
  unfold Email.notify
  rw [hnil]
  simp

/-- Witness for C10: a concrete all-healthy batch yields success and no
network attempt, even with a failing transport and a live context. -/
theorem email_notify_healthy_no_network_witness :
    Email.notify
      { fromAddr := "monitor@example.com", toAddrs := ["admin@example.com"],
        smtpServer := "smtp.example.com", smtpPort := 587, username := "",
        password := "", hasAuth := false }
      false (fun _ => .error "network down")
      [{ isHealthy := true, collector := "disk_space", timestamp := 3, message := "",
         metrics := [], thresholds := [], metadata := [] }] = (.ok (), false) := by
  exact email_notify_healthy_no_network _ _ _ _ (by
    intro r hr
    simp at hr
    rw [hr])

/-! ## Configuration claims (config/config.go) -/

/-- C7: for an enabled collector the resolved interval is the override when
positive and the default otherwise (an absent override unmarshals to 0), and
validation rejects a non-positive default interval. -/
theorem interval_resolution_and_validation :
    ∀ (cfg : Config) (name : String) (c : CollectorConfig),
      cfg.collectors.lookup name = some c →
      c.enabled = true →
      (0 < c.interval → cfg.getCollectorInterval name = c.interval * second) ∧
      (c.interval ≤ 0 →
        cfg.getCollectorInterval name = cfg.monitor.defaultIntervalSeconds * second) ∧
      (∀ cfg2, validateConfig cfg = .ok cfg2 →
        0 < cfg.monitor.defaultIntervalSeconds) := by
  intro cfg name c hlook hen
  refine ⟨?_, ?_, ?_⟩
  · intro hpos
    have hle : ¬c.interval ≤ 0 := by omega
    simp [Config.getCollectorInterval, hlook, hen, hle]
  · intro hle
    simp [Config.getCollectorInterval, hlook, hen, hle]
  · intro cfg2 hval
    by_contra hnp
    have hle : cfg.monitor.defaultIntervalSeconds ≤ 0 := by omega
    simp [validateConfig, hle] at hval

/-- Witness for C7 at a concrete configuration with one overridden and one
defaulted collector. -/
theorem interval_resolution_and_validation_witness :
    ({ monitor := { defaultIntervalSeconds := 300 },
       collectors := [("disk_space", { enabled := true, interval := 60, settings := none })],
       notifications := { email :=
         { enabled := false, fromAddr := "", toAddrs := [], smtpServer := "",
           smtpPort := 0, username := "", password := "" } } } : Config).getCollectorInterval
      "disk_space" = 60 * second := by
  have h := interval_resolution_and_validation
    { monitor := { defaultIntervalSeconds := 300 },
      collectors := [("disk_space", { enabled := true, interval := 60, settings := none })],
      notifications := { email :=
        { enabled := false, fromAddr := "", toAddrs := [], smtpServer := "",
          smtpPort := 0, username := "", password := "" } } }
    "disk_space" { enabled := true, interval := 60, settings := none } rfl rfl
  exact h.1 (by decide)

/-- Configuration exhibiting the C9 counterexample: the `Config` value at the
core boundary need not have passed `validateConfig`, so an enabled collector
with no override and default interval 0 resolves to 0. -/
def unvalidatedConfig : Config :=
  { monitor := { defaultIntervalSeconds := 0 },
    collectors := [("memory", { enabled := true, interval := 0, settings := none })],
    notifications := { email :=
      { enabled := false, fromAddr := "", toAddrs := [], smtpServer := "",
        smtpPort := 0, username := "", password := "" } } }

/-- C9 counterexample: `memory` is present and enabled, yet
`GetCollectorInterval` returns 0, not a positive duration. -/
theorem enabled_interval_not_positive_counterexample :
    unvalidatedConfig.collectors.lookup "memory" =
      some { enabled := true, interval := 0, settings := none } ∧
    unvalidatedConfig.getCollectorInterval "memory" = 0 := by
  exact ⟨rfl, rfl⟩

/-- C9 as amended: absent or disabled collectors resolve to a zero duration;
an enabled collector resolves to the override when positive and the default
otherwise, and this is positive whenever the default interval is positive
(which `validateConfig` guarantees for configurations it accepts). -/
theorem interval_zero_absent_disabled_positive_enabled :
    ∀ (cfg : Config) (name : String),
      (cfg.collectors.lookup name = none → cfg.getCollectorInterval name = 0) ∧
      (∀ c, cfg.collectors.lookup name = some c → c.enabled = false →
        cfg.getCollectorInterval name = 0) ∧
      (∀ c, cfg.collectors.lookup name = some c → c.enabled = true →
        cfg.getCollectorInterval name =
          (if 0 < c.interval then c.interval
           else cfg.monitor.defaultIntervalSeconds) * second ∧
        (0 < cfg.monitor.defaultIntervalSeconds →
          0 < cfg.getCollectorInterval name)) := by
  intro cfg name
  refine ⟨?_, ?_, ?_⟩
  · intro hnone
    simp [Config.getCollectorInterval, hnone]
  · intro c hsome hdis
    simp [Config.getCollectorInterval, hsome, hdis]
  · intro c hsome hen
    constructor
    · by_cases hpos : 0 < c.interval
      · have hle : ¬c.interval ≤ 0 := by omega
        simp [Config.getCollectorInterval, hsome, hen, hle, hpos]
      · have hle : c.interval ≤ 0 := by omega
        simp [Config.getCollectorInterval, hsome, hen, hle, hpos]
    · intro hdef
      by_cases hpos : 0 < c.interval
      · have hle : ¬c.interval ≤ 0 := by omega
        simp only [Config.getCollectorInterval, hsome, hen]
        simp only [Bool.not_true, Bool.false_eq_true, if_false, hle, ite_false]
        exact mul_pos hpos (by norm_num [second])
      · have hle : c.interval ≤ 0 := by omega
        simp only [Config.getCollectorInterval, hsome, hen]
        simp only [Bool.not_true, Bool.false_eq_true, if_false, hle, ite_true]
        exact mul_pos hdef (by norm_num [second])

/-- Witness for C9 (amended): concrete absent, disabled and enabled lookups. -/
theorem interval_zero_absent_disabled_positive_enabled_witness :
    unvalidatedConfig.getCollectorInterval "disk_space" = 0 ∧
    unvalidatedConfig.getCollectorInterval "memory" = 0 ∧
    enabledEmailConfig.getCollectorInterval "memory" = 0 := by
  refine ⟨?_, rfl, ?_⟩
  · exact (interval_zero_absent_disabled_positive_enabled unvalidatedConfig "disk_space").1 rfl
  · exact (interval_zero_absent_disabled_positive_enabled enabledEmailConfig "memory").1 rfl

/-! ## Service lifecycle (monitor/monitor.go) -/

namespace Monitor

/-- collectors/disk/disk.go `NewDiskCollector`: the collector named
`disk_space`; its settings parsing and metric logic are external
collaborators entering as the `Init`/`Cleanup` outcomes. -/
def NewDiskCollector (init : Settings → Except String Unit)
    (cleanup : Except String Unit) : Collector :=
  { name := "disk_space", init := init, cleanup := cleanup }

/-- collectors/memory/memory.go `NewMemoryCollector`: named `memory`. -/
def NewMemoryCollector (init : Settings → Except String Unit)
    (cleanup : Except String Unit) : Collector :=
  { name := "memory", init := init, cleanup := cleanup }

/-- notifiers/email/email.go `NewEmailNotifier` as registered by the
monitor: named `email`, behaviour abstracted to outcomes. -/
def NewEmailNotifier (init : Settings → Except String Unit)
    (notify : List Result → Except String Unit)
    (close : Except String Unit) : Notifier :=
  { name := "email", init := init, notify := notify, close := close }

/-- monitor.go `registerCollectors`: register the disk then the memory
collector into the service's fresh registry. -/
def registerCollectors (diskC memC : Collector) : Except String Collectors.Registry :=
  match Collectors.register [] diskC with
  | .error e => .error ("failed to register disk collector: " ++ e)
  | .ok r1 =>
    match Collectors.register r1 memC with
    | .error e => .error ("failed to register memory collector: " ++ e)
    | .ok r2 => .ok r2

/-- monitor.go `registerNotifiers`: register the email notifier. -/
def registerNotifiers (emailN : Notifier) : Except String Notifiers.Registry :=
  match Notifiers.register [] emailN with
  | .error e => .error ("failed to register email notifier: " ++ e)
  | .ok r => .ok r

/-- monitor.go `initializeCollectors`: iterate the configured collector map
(iteration order fixed as list order); skip disabled entries and enabled
entries missing from the registry (logged, non-fatal); a `nil` settings map
becomes an empty map; the first `Init` error aborts. -/
def initializeCollectors (cfgCollectors : List (String × CollectorConfig))
    (registry : Collectors.Registry) : Except String Unit :=
  match cfgCollectors with
  | [] => .ok ()
  | (name, collectorCfg) :: rest =>
    if !collectorCfg.enabled then initializeCollectors rest registry
    else
      match Collectors.get registry name with
      | none => initializeCollectors rest registry
      | some collector =>
        match collector.init (collectorCfg.settings.getD []) with
        | .error e => .error ("failed to initialize collector " ++ name ++ ": " ++ e)
        | .ok _ => initializeCollectors rest registry

/-- The `map[string]interface{}` that monitor.go `initializeNotifiers`
builds from the email configuration. -/
def emailSettingsMap (emailCfg : EmailConfig) : Settings :=
  [("from", .str emailCfg.fromAddr), ("to", .strList emailCfg.toAddrs),
   ("smtp_server", .str emailCfg.smtpServer), ("smtp_port", .int emailCfg.smtpPort),
   ("username", .str emailCfg.username), ("password", .str emailCfg.password)]

/-- monitor.go `initializeNotifiers`: when email notifications are enabled,
look up `email` (fatal when missing) and initialize it. -/
def initializeNotifiers (cfg : Config) (registry : Notifiers.Registry) :
    Except String Unit :=
  if cfg.notifications.email.enabled then
    match Notifiers.get registry "email" with
    | none => .error "email notifier is enabled but not registered"
    | some notifier =>
      match notifier.init (emailSettingsMap cfg.notifications.email) with
      | .error e => .error ("failed to initialize email notifier: " ++ e)
      | .ok _ => .ok ()
  else .ok ()

/-- monitor.go `startCollectorTasks` loop.  `tasks` lists the collector task
loops spawned so far (`startCollectorTask` records a cancel handle, spawns
the goroutine and always returns nil).  An enabled, registered entry whose
resolved interval is non-positive aborts with an error — without cancelling
the loops already spawned. -/
def startCollectorTasksLoop (cfg : Config) (registry : Collectors.Registry)
    (entries : List (String × CollectorConfig)) (tasks : List String) :
    Except String Unit × List String :=
  match entries with
  | [] => (.ok (), tasks)
  | (name, collectorCfg) :: rest =>
    if !collectorCfg.enabled then startCollectorTasksLoop cfg registry rest tasks
    else
      match Collectors.get registry name with
      | none => startCollectorTasksLoop cfg registry rest tasks
      | some collector =>
        let interval := cfg.getCollectorInterval name
        if interval ≤ 0 then
          (.error ("invalid interval for collector " ++ name), tasks)
        else startCollectorTasksLoop cfg registry rest (tasks ++ [collector.name])

/-- monitor.go `startCollectorTasks`. -/
def startCollectorTasks (cfg : Config) (registry : Collectors.Registry) :
    Except String Unit × List String :=
  startCollectorTasksLoop cfg registry cfg.collectors []

/-- monitor.go `Start`: register → initialize → schedule, each stage fatal
on error.  The second component is the list of collector task loops still
running when `Start` returns; the error paths do not cancel loops already
spawned by the scheduling stage.  The service reaches Running exactly when
the first component is `ok`. -/
def start (diskC memC : Collector) (emailN : Notifier) (cfg : Config) :
    Except String Unit × List String :=
  match registerCollectors diskC memC with
  | .error e => (.error ("failed to register collectors: " ++ e), [])
  | .ok collectorRegistry =>
    match registerNotifiers emailN with
    | .error e => (.error ("failed to register notifiers: " ++ e), [])
    | .ok notifierRegistry =>
      match initializeCollectors cfg.collectors collectorRegistry with
      | .error e => (.error ("failed to initialize collectors: " ++ e), [])
      | .ok _ =>
        match initializeNotifiers cfg notifierRegistry with
        | .error e => (.error ("failed to initialize notifiers: " ++ e), [])
        | .ok _ =>
          let scheduled := startCollectorTasks cfg collectorRegistry
          match scheduled.1 with
          | .error e => (.error ("failed to start collector tasks: " ++ e), scheduled.2)
          | .ok _ => (.ok (), scheduled.2)

/-- monitor.go `Stop`: after cancelling the shared context and joining every
task loop, invoke `Cleanup` on every registered collector and `Close` on
every registered notifier, logging failures and always continuing.  The
result records the attempted invocations in order as (instance name,
outcome). -/
def stop (collectorRegistry : Collectors.Registry)
    (notifierRegistry : Notifiers.Registry) :
    List (String × Except String Unit) :=
  (Collectors.getAll collectorRegistry).map (fun c => (c.name, c.cleanup)) ++
  (Notifiers.getAll notifierRegistry).map (fun n => (n.name, n.close))

end Monitor

/-- `registerCollectors` always succeeds on the two fixed-name plugins. -/
lemma registerCollectors_ok (dInit mInit : Settings → Except String Unit)
    (dCl mCl : Except String Unit) :
    Monitor.registerCollectors (Monitor.NewDiskCollector dInit dCl)
      (Monitor.NewMemoryCollector mInit mCl) =
    .ok [("disk_space", Monitor.NewDiskCollector dInit dCl),
         ("memory", Monitor.NewMemoryCollector mInit mCl)] := rfl

/-- `registerNotifiers` always succeeds on the fixed-name email notifier. -/
lemma registerNotifiers_ok (eInit : Settings → Except String Unit)
    (eNotify : List Result → Except String Unit) (eCl : Except String Unit) :
    Monitor.registerNotifiers (Monitor.NewEmailNotifier eInit eNotify eCl) =
    .ok [("email", Monitor.NewEmailNotifier eInit eNotify eCl)] := rfl

/-- If some enabled entry is registered and its `Init` rejects its settings,
`initializeCollectors` returns an error. -/
lemma initializeCollectors_error_of_mem :
    ∀ (entries : List (String × CollectorConfig)) (registry : Collectors.Registry)
      (name : String) (c : CollectorConfig) (col : Collector) (e : String),
      (name, c) ∈ entries → c.enabled = true →
      Collectors.get registry name = some col →
      col.init (c.settings.getD []) = .error e →
      (Monitor.initializeCollectors entries registry).isOk = false := by
  intro entries
  induction entries with
  | nil =>
    intro registry name c col e hmem
    cases hmem
  | cons hd rest ih =>
    intro registry name c col e hmem hen hget hinit
    obtain ⟨n1, c1⟩ := hd
    rcases List.mem_cons.mp hmem with hhd | htl
    · rw [Prod.mk.injEq] at hhd
      obtain ⟨hn, hc⟩ := hhd
      subst hn
      subst hc
      simp [Monitor.initializeCollectors, hen, hget, hinit, Except.isOk, Except.toBool]
    · have hrest := ih registry name c col e htl hen hget hinit
      simp only [Monitor.initializeCollectors]
      cases he1 : c1.enabled with
      | false => simpa [he1] using hrest
      | true =>
        simp only [he1, Bool.not_true, Bool.false_eq_true, if_false, ite_false]
        cases hg1 : Collectors.get registry n1 with
        | none => simpa using hrest
        | some col1 =>
          cases hi1 : col1.init (c1.settings.getD []) with
          | error e1 => simp [hi1, Except.isOk, Except.toBool]
          | ok u => simpa [hi1] using hrest

/-- An enabled entry not present in the registry is skipped: the
initializing stage behaves as if the entry were absent. -/
lemma initializeCollectors_skip_missing :
    ∀ (pre : List (String × CollectorConfig)) (registry : Collectors.Registry)
      (name : String) (c : CollectorConfig) (post : List (String × CollectorConfig)),
      Collectors.get registry name = none →
      Monitor.initializeCollectors (pre ++ (name, c) :: post) registry =
        Monitor.initializeCollectors (pre ++ post) registry := by
  intro pre
  induction pre with
  | nil =>
    intro registry name c post hget
    cases hen : c.enabled with
    | false => simp [Monitor.initializeCollectors, hen]
    | true => simp [Monitor.initializeCollectors, hen, hget]
  | cons hd rest ih =>
    intro registry name c post hget
    obtain ⟨n1, c1⟩ := hd
    simp only [List.cons_append, Monitor.initializeCollectors]
    cases he1 : c1.enabled with
    | false => simpa [he1] using ih registry name c post hget
    | true =>
      simp only [he1, Bool.not_true, Bool.false_eq_true, if_false, ite_false]
      cases hg1 : Collectors.get registry n1 with
      | none => simpa using ih registry name c post hget
      | some col1 =>
        cases hi1 : col1.init (c1.settings.getD []) with
        | error e1 => simp [hi1]
        | ok u => simpa [hi1] using ih registry name c post hget

/-- With unique keys, membership determines the map lookup. -/
lemma lookup_eq_of_mem_nodup {α : Type} :
    ∀ {l : List (String × α)} {n : String} {c : α},
      (n, c) ∈ l → (l.map Prod.fst).Nodup → l.lookup n = some c := by
  intro l
  induction l with
  | nil =>
    intro n c h
    cases h
  | cons hd rest ih =>
    intro n c hmem hnd
    obtain ⟨k, v⟩ := hd
    have hnd2 : k ∉ rest.map Prod.fst ∧ (rest.map Prod.fst).Nodup :=
      List.nodup_cons.mp (by simpa using hnd)
    rcases List.mem_cons.mp hmem with hhd | htl
    · rw [Prod.mk.injEq] at hhd
      obtain ⟨h1, h2⟩ := hhd
      subst h1
      subst h2
      exact lookup_cons_self ..
    · have hne : n ≠ k := by
        intro he
        subst he
        exact hnd2.1 (List.mem_map.mpr ⟨(n, c), htl, rfl⟩)
      rw [lookup_cons_ne v rest hne]
      exact ih htl hnd2.2

/-- For an enabled, looked-up collector the resolved interval is positive
whenever the default interval is. -/
lemma getCollectorInterval_pos {cfg : Config} {n : String} {c : CollectorConfig}
    (hlook : cfg.collectors.lookup n = some c) (hen : c.enabled = true)
    (hdef : 0 < cfg.monitor.defaultIntervalSeconds) :
    0 < cfg.getCollectorInterval n := by
  simp only [Config.getCollectorInterval, hlook, hen, Bool.not_true,
    Bool.false_eq_true, if_false, ite_false]
  by_cases hle : c.interval ≤ 0
  · simp only [hle, ite_true]
    exact mul_pos hdef (by norm_num [second])
  · simp only [hle, ite_false]
    exact mul_pos (by omega) (by norm_num [second])

/-- Under unique keys and a positive default interval the scheduling loop
never fails (every enabled, registered entry resolves a positive interval). -/
lemma startCollectorTasksLoop_ok :
    ∀ (entries : List (String × CollectorConfig)) (cfg : Config)
      (registry : Collectors.Registry) (tasks : List String),
      (∀ p ∈ entries, cfg.collectors.lookup p.1 = some p.2) →
      0 < cfg.monitor.defaultIntervalSeconds →
      (Monitor.startCollectorTasksLoop cfg registry entries tasks).1 = .ok () := by
  intro entries
  induction entries with
  | nil =>
    intro cfg registry tasks hl hdef
    rfl
  | cons hd rest ih =>
    intro cfg registry tasks hl hdef
    obtain ⟨n1, c1⟩ := hd
    have hrest : ∀ p ∈ rest, cfg.collectors.lookup p.1 = some p.2 := by
      intro p hp
      exact hl p (List.mem_cons_of_mem _ hp)
    simp only [Monitor.startCollectorTasksLoop]
    cases he1 : c1.enabled with
    | false => simpa [he1] using ih cfg registry tasks hrest hdef
    | true =>
      simp only [he1, Bool.not_true, Bool.false_eq_true, if_false, ite_false]
      cases hg1 : Collectors.get registry n1 with
      | none => simpa using ih cfg registry tasks hrest hdef
      | some col1 =>
        have hlook : cfg.collectors.lookup n1 = some c1 :=
          hl (n1, c1) (List.mem_cons_self _ _)
        have hpos : 0 < cfg.getCollectorInterval n1 :=
          getCollectorInterval_pos hlook he1 hdef
        have hnle : ¬cfg.getCollectorInterval n1 ≤ 0 := by omega
        simpa [hnle] using ih cfg registry (tasks ++ [col1.name]) hrest hdef

end ServerMonitor

namespace ServerMonitor

/-- C5: during the Initializing stage, an enabled plugin name with no
matching registry entry is a non-fatal skip (startup continues exactly as if
the entry were absent), while a plugin that is found but whose `Init`
rejects its settings makes `start()` return an error — and the service
reaches Running exactly when `start()` returns ok, so it does not reach
Running.  Part (c) covers the notifier registry: an enabled email notifier
whose `Init` rejects its settings likewise aborts startup. -/
theorem init_skip_missing_abort_on_config_error :
    ∀ (dInit mInit eInit : Settings → Except String Unit)
      (dCl mCl eCl : Except String Unit)
      (eNotify : List Result → Except String Unit) (cfg : Config)
      (pre post : List (String × CollectorConfig)) (name : String)
      (c : CollectorConfig),
      (∀ registry : Collectors.Registry, c.enabled = true →
        Collectors.get registry name = none →
        Monitor.initializeCollectors (pre ++ (name, c) :: post) registry =
          Monitor.initializeCollectors (pre ++ post) registry) ∧
      (∀ col e, (name, c) ∈ cfg.collectors → c.enabled = true →
        Collectors.get [("disk_space", Monitor.NewDiskCollector dInit dCl),
          ("memory", Monitor.NewMemoryCollector mInit mCl)] name = some col →
        col.init (c.settings.getD []) = .error e →
        (Monitor.start (Monitor.NewDiskCollector dInit dCl)
          (Monitor.NewMemoryCollector mInit mCl)
          (Monitor.NewEmailNotifier eInit eNotify eCl) cfg).1.isOk = false) ∧
      (∀ e, cfg.notifications.email.enabled = true →
        eInit (Monitor.emailSettingsMap cfg.notifications.email) = .error e →
        (Monitor.start (Monitor.NewDiskCollector dInit dCl)
          (Monitor.NewMemoryCollector mInit mCl)
          (Monitor.NewEmailNotifier eInit eNotify eCl) cfg).1.isOk = false) := by
  intro dInit mInit eInit dCl mCl eCl eNotify cfg pre post name c
  refine ⟨?_, ?_, ?_⟩
  · intro registry _hen hget
    exact initializeCollectors_skip_missing pre registry name c post hget
  · intro col e hmem hen hget hinit
    have herr := initializeCollectors_error_of_mem cfg.collectors
      [("disk_space", Monitor.NewDiskCollector dInit dCl),
       ("memory", Monitor.NewMemoryCollector mInit mCl)]
      name c col e hmem hen hget hinit
    simp only [Monitor.start, registerCollectors_ok, registerNotifiers_ok]
    cases hic : Monitor.initializeCollectors cfg.collectors
        [("disk_space", Monitor.NewDiskCollector dInit dCl),
         ("memory", Monitor.NewMemoryCollector mInit mCl)] with
    | error e2 => simp [hic, Except.isOk, Except.toBool]
    | ok u =>
      rw [hic] at herr
      cases herr
  · intro e hen hinit
    simp only [Monitor.start, registerCollectors_ok, registerNotifiers_ok]
    cases hic : Monitor.initializeCollectors cfg.collectors
        [("disk_space", Monitor.NewDiskCollector dInit dCl),
         ("memory", Monitor.NewMemoryCollector mInit mCl)] with
    | error e2 => simp [hic, Except.isOk, Except.toBool]
    | ok u =>
      have hn : Monitor.initializeNotifiers cfg
          [("email", Monitor.NewEmailNotifier eInit eNotify eCl)] =
          .error ("failed to initialize email notifier: " ++ e) := by
        simp [Monitor.initializeNotifiers, hen, Notifiers.get, List.lookup, hinit,
          Monitor.NewEmailNotifier]
      simp [hic, hn, Except.isOk, Except.toBool]

/-- Witness for C5: an enabled `memory` collector whose `Init` rejects its
settings makes the concrete `start()` fail. -/
theorem init_skip_missing_abort_on_config_error_witness :
    (Monitor.start (Monitor.NewDiskCollector (fun _ => .ok ()) (.ok ()))
      (Monitor.NewMemoryCollector (fun _ => .error "bad settings") (.ok ()))
      (Monitor.NewEmailNotifier (fun _ => .ok ()) (fun _ => .ok ()) (.ok ()))
      { monitor := { defaultIntervalSeconds := 300 },
        collectors := [("memory", { enabled := true, interval := 0, settings := none })],
        notifications := { email :=
          { enabled := false, fromAddr := "", toAddrs := [], smtpServer := "",
            smtpPort := 0, username := "", password := "" } } }).1.isOk = false := by
  have h := init_skip_missing_abort_on_config_error
    (fun _ => .ok ()) (fun _ => .error "bad settings") (fun _ => .ok ())
    (.ok ()) (.ok ()) (.ok ()) (fun _ => .ok ())
    { monitor := { defaultIntervalSeconds := 300 },
      collectors := [("memory", { enabled := true, interval := 0, settings := none })],
      notifications := { email :=
        { enabled := false, fromAddr := "", toAddrs := [], smtpServer := "",
          smtpPort := 0, username := "", password := "" } } }
    [] [] "memory" { enabled := true, interval := 0, settings := none }
  exact h.2.1 (Monitor.NewMemoryCollector (fun _ => .error "bad settings") (.ok ()))
    "bad settings" (List.mem_cons_self _ _) rfl rfl rfl

/-- The memory collector instance with trivial plugin behaviour. -/
def sampleMemoryCollector : Collector :=
  Monitor.NewMemoryCollector (fun _ => .ok ()) (.ok ())

/-- Configuration for the C6 counterexample: default interval 0 (never
validated at the `Start` boundary), `disk_space` with a positive override,
`memory` enabled with no override. -/
def orphanConfig : Config :=
  { monitor := { defaultIntervalSeconds := 0 },
    collectors := [("disk_space", { enabled := true, interval := 5, settings := none }),
                   ("memory", { enabled := true, interval := 0, settings := none })],
    notifications := { email :=
      { enabled := false, fromAddr := "", toAddrs := [], smtpServer := "",
        smtpPort := 0, username := "", password := "" } } }

/-- C6 counterexample: `start()` returns an error from the scheduling stage,
yet the `disk_space` task loop spawned before the failure is still running —
not zero loops — because the error path never cancels. -/
theorem start_error_orphaned_loop_counterexample :
    (Monitor.start (Monitor.NewDiskCollector (fun _ => .ok ()) (.ok ()))
      sampleMemoryCollector sampleNotifier orphanConfig).1.isOk = false ∧
    (Monitor.start (Monitor.NewDiskCollector (fun _ => .ok ()) (.ok ()))
      sampleMemoryCollector sampleNotifier orphanConfig).2 = ["disk_space"] := by
  exact ⟨rfl, rfl⟩

/-- C6 as amended: for every configuration with unique collector names (a Go
map invariant) and a positive default interval (the configuration surface
the core consumes), `start()` returning an error implies zero collector task
loops remain running — all such errors occur before any loop is spawned.
Without a positive default, a loop spawned before the scheduling-stage
failure remains running (see the counterexample). -/
theorem start_error_leaves_no_loops :
    ∀ (dInit mInit eInit : Settings → Except String Unit)
      (dCl mCl eCl : Except String Unit)
      (eNotify : List Result → Except String Unit) (cfg : Config),
      (cfg.collectors.map Prod.fst).Nodup →
      0 < cfg.monitor.defaultIntervalSeconds →
      (Monitor.start (Monitor.NewDiskCollector dInit dCl)
        (Monitor.NewMemoryCollector mInit mCl)
        (Monitor.NewEmailNotifier eInit eNotify eCl) cfg).1.isOk = false →
      (Monitor.start (Monitor.NewDiskCollector dInit dCl)
        (Monitor.NewMemoryCollector mInit mCl)
        (Monitor.NewEmailNotifier eInit eNotify eCl) cfg).2 = [] := by
  intro dInit mInit eInit dCl mCl eCl eNotify cfg hnd hdef herr
  have hok := startCollectorTasksLoop_ok cfg.collectors cfg
    [("disk_space", Monitor.NewDiskCollector dInit dCl),
     ("memory", Monitor.NewMemoryCollector mInit mCl)] []
    (fun p hp => lookup_eq_of_mem_nodup (by simpa using hp) hnd) hdef
  simp only [Monitor.start, registerCollectors_ok, registerNotifiers_ok] at herr ⊢
  cases hic : Monitor.initializeCollectors cfg.collectors
      [("disk_space", Monitor.NewDiskCollector dInit dCl),
       ("memory", Monitor.NewMemoryCollector mInit mCl)] with
  | error e2 => simp [hic]
  | ok u =>
    cases hin : Monitor.initializeNotifiers cfg
        [("email", Monitor.NewEmailNotifier eInit eNotify eCl)] with
    | error e3 => simp [hic, hin]
    | ok v =>
      rw [hic, hin] at herr
      simp only [Monitor.startCollectorTasks] at hok
      simp [Monitor.startCollectorTasks, hok, Except.isOk, Except.toBool] at herr

/-- Witness for C6 (amended): a validated-shape configuration whose startup
fails during initialization leaves zero task loops. -/
theorem start_error_leaves_no_loops_witness :
    (Monitor.start (Monitor.NewDiskCollector (fun _ => .ok ()) (.ok ()))
      (Monitor.NewMemoryCollector (fun _ => .error "bad settings") (.ok ()))
      (Monitor.NewEmailNotifier (fun _ => .ok ()) (fun _ => .ok ()) (.ok ()))
      { monitor := { defaultIntervalSeconds := 300 },
        collectors := [("memory", { enabled := true, interval := 0, settings := none })],
        notifications := { email :=
          { enabled := false, fromAddr := "", toAddrs := [], smtpServer := "",
            smtpPort := 0, username := "", password := "" } } }).2 = [] := by
  exact start_error_leaves_no_loops
    (fun _ => .ok ()) (fun _ => .error "bad settings") (fun _ => .ok ())
    (.ok ()) (.ok ()) (.ok ()) (fun _ => .ok ())
    { monitor := { defaultIntervalSeconds := 300 },
      collectors := [("memory", { enabled := true, interval := 0, settings := none })],
      notifications := { email :=
        { enabled := false, fromAddr := "", toAddrs := [], smtpServer := "",
          smtpPort := 0, username := "", password := "" } } }
    (by simp) (by decide) rfl

/-- C8: after `stop()`, cleanup/close has been invoked exactly once on every
registered collector and every registered notifier (not only the enabled
ones) — the invocation list is exactly the registries' instances in order —
and the list of attempted invocations does not depend on the individual
cleanup outcomes, so one failure never prevents the remaining attempts. -/
theorem stop_cleans_all_registered :
    ∀ (cReg : Collectors.Registry) (nReg : Notifiers.Registry),
      (Monitor.stop cReg nReg).map Prod.fst =
        (Collectors.getAll cReg).map Collector.name ++
        (Notifiers.getAll nReg).map Notifier.name ∧
      (Monitor.stop cReg nReg).length = cReg.length + nReg.length ∧
      (∀ (f : Collector → Except String Unit) (g : Notifier → Except String Unit),
        (Monitor.stop (cReg.map (fun p => (p.1, { p.2 with cleanup := f p.2 })))
            (nReg.map (fun p => (p.1, { p.2 with close := g p.2 })))).map Prod.fst =
          (Monitor.stop cReg nReg).map Prod.fst) := by
  intro cReg nReg
  refine ⟨?_, ?_, ?_⟩
  · simp only [Monitor.stop, Collectors.getAll, Notifiers.getAll,
      List.map_append, List.map_map]
    rfl
  · simp [Monitor.stop, Collectors.getAll, Notifiers.getAll]
  · intro f g
    simp only [Monitor.stop, Collectors.getAll, Notifiers.getAll,
      List.map_append, List.map_map]
    rfl

end ServerMonitor
